import Mathlib

/-!
# vcxagent-core: `service-agents.js`

A shallow embedding of `createServiceAgents` from
`agents/node/vcxagent-core/src/services/service-agents.js`.

The module is a factory around five collaborator calls: `logger.info`,
`Agent.create`, `saveAgent`, `loadAgent` and the loaded agent's
`createPublicInvite`.  Each collaborator is a function of the outside world
`W` which either returns a value or throws an error, and leaves a new world
behind in both cases (a JavaScript exception does not undo effects).  The two
operations are written in a monad that threads the world, stops at the first
error, and records every collaborator call together with its outcome.
-/

namespace VcxAgent

deriving instance DecidableEq for Except

/-- One collaborator call as observed from outside: its arguments and what it
returned (`ok`) or threw (`error`). -/
inductive Event (H I E : Type) where
  | loggerInfo (msg : String) (r : Except E Unit)
  | agentCreate (institutionDid : String) (r : Except E H)
  | saveAgent (agentId : String) (agent : H) (r : Except E Unit)
  | loadAgent (agentId : String) (r : Except E H)
  | createPublicInvite (agent : H) (label : String) (r : Except E I)
  deriving DecidableEq

/-- The collaborators the module closes over: the injected `logger`,
`saveAgent`, `loadAgent`, the imported `Agent.create`, and the method
`createPublicInvite` carried by an agent object. -/
structure Env (W H I E : Type) where
  loggerInfo : String → W → Except E Unit × W
  agentCreate : String → W → Except E H × W
  saveAgent : String → H → W → Except E Unit × W
  loadAgent : String → W → Except E H × W
  createPublicInvite : H → String → W → Except E I × W

/-- What one invocation leaves behind: the settled promise (`ok` resolved,
`error` rejected), the world afterwards, and the collaborator calls made, in
order. -/
structure Run (W H I E α : Type) where
  result : Except E α
  world : W
  trace : List (Event H I E)

/-- Body of an `async function`: a computation over the world. -/
def Eff (W H I E α : Type) : Type := W → Run W H I E α

/-- Sequencing of statements: the rest of the body runs only when the first
statement did not throw, from the world the first statement left. -/
def Eff.bind {W H I E α β : Type} (m : Eff W H I E α) (f : α → Eff W H I E β) :
    Eff W H I E β := fun w =>
  let r := m w
  match r.result with
  | .error e => ⟨.error e, r.world, r.trace⟩
  | .ok a =>
    let r2 := f a r.world
    ⟨r2.result, r2.world, r.trace ++ r2.trace⟩

instance {W H I E : Type} : Monad (Eff W H I E) where
  pure a := fun w => ⟨.ok a, w, []⟩
  bind := Eff.bind

/-- A collaborator call: run it on the world and record it with its outcome. -/
def call {W H I E α : Type} (f : W → Except E α × W) (ev : Except E α → Event H I E) :
    Eff W H I E α := fun w =>
  let p := f w
  ⟨p.1, p.2, [ev p.1]⟩

section Operations

variable {W H I E : Type}

/-- The template string logged by `publicAgentCreate`. -/
def createMsg (agentId institutionDid : String) : String :=
  "Creating public agent with id " ++ agentId ++ " for institution did " ++ institutionDid

/-- The template string logged by `getPublicInvite`. -/
def inviteMsg (agentId label : String) : String :=
  "Public agent with id " ++ agentId ++ " is creating public invite with label " ++ label

/-- `publicAgentCreate` of `createServiceAgents`. -/
def publicAgentCreate (env : Env W H I E) (agentId institutionDid : String) :
    Eff W H I E H := do
  call (env.loggerInfo (createMsg agentId institutionDid))
    (Event.loggerInfo (createMsg agentId institutionDid))
  let agent ← call (env.agentCreate institutionDid) (Event.agentCreate institutionDid)
  call (env.saveAgent agentId agent) (Event.saveAgent agentId agent)
  return agent

/-- `getPublicInvite` of `createServiceAgents`. -/
def getPublicInvite (env : Env W H I E) (agentId label : String) :
    Eff W H I E I := do
  call (env.loggerInfo (inviteMsg agentId label)) (Event.loggerInfo (inviteMsg agentId label))
  let agent ← call (env.loadAgent agentId) (Event.loadAgent agentId)
  call (env.createPublicInvite agent label) (Event.createPublicInvite agent label)

/-- The object returned by the factory. -/
structure Service (W H I E : Type) where
  publicAgentCreate : String → String → Eff W H I E H
  getPublicInvite : String → String → Eff W H I E I

/-- `createServiceAgents` of the module. -/
def createServiceAgents (env : Env W H I E) : Service W H I E :=
  { publicAgentCreate := publicAgentCreate env
    getPublicInvite := getPublicInvite env }

end Operations

/-! ## Observations on traces -/

section Observations

variable {H I E : Type}

/-- Which collaborator a call went to: the logger, the identity-agent backend
(`Agent.create`, `createPublicInvite`) or the store (`saveAgent`, `loadAgent`). -/
inductive Kind where
  | log
  | backend
  | store
  deriving DecidableEq

/-- The collaborator kind of a recorded call. -/
def Event.kind : Event H I E → Kind
  | .loggerInfo _ _ => .log
  | .agentCreate _ _ => .backend
  | .saveAgent _ _ _ => .store
  | .loadAgent _ _ => .store
  | .createPublicInvite _ _ _ => .backend

/-- The error a recorded call threw, if it threw. -/
def Event.thrown : Event H I E → Option E
  | .loggerInfo _ (.error e) => some e
  | .agentCreate _ (.error e) => some e
  | .saveAgent _ _ (.error e) => some e
  | .loadAgent _ (.error e) => some e
  | .createPublicInvite _ _ (.error e) => some e
  | _ => none

/-- Recognises a `logger.info` call. -/
def Event.isLog : Event H I E → Bool
  | .loggerInfo _ _ => true
  | _ => false

/-- Recognises an `Agent.create` call. -/
def Event.isCreate : Event H I E → Bool
  | .agentCreate _ _ => true
  | _ => false

/-- Recognises a `saveAgent` call. -/
def Event.isSave : Event H I E → Bool
  | .saveAgent _ _ _ => true
  | _ => false

/-- Recognises a `createPublicInvite` call. -/
def Event.isInvite : Event H I E → Bool
  | .createPublicInvite _ _ _ => true
  | _ => false

/-- The backend and store calls of a trace, the log calls left out. -/
def effectCalls (t : List (Event H I E)) : List (Event H I E) :=
  t.filter (fun ev => !ev.isLog)

/-- A trace with at most one backend call and at most one store call, the
backend call ahead of the store call. -/
def backendThenStore (t : List (Event H I E)) : Prop :=
  (t.map Event.kind).count Kind.backend ≤ 1 ∧ (t.map Event.kind).count Kind.store ≤ 1 ∧
    (t.map Event.kind).Pairwise (fun a b => ¬ (a = Kind.store ∧ b = Kind.backend))

/-- A trace with at most one store call and at most one backend call, the
store call ahead of the backend call. -/
def storeThenBackend (t : List (Event H I E)) : Prop :=
  (t.map Event.kind).count Kind.backend ≤ 1 ∧ (t.map Event.kind).count Kind.store ≤ 1 ∧
    (t.map Event.kind).Pairwise (fun a b => ¬ (a = Kind.backend ∧ b = Kind.store))

/-- A rejected operation rejects with the error of its last collaborator call,
and every call before that one returned normally. -/
def FailsWithLastCall {W α : Type} (r : Run W H I E α) : Prop :=
  ∀ e, r.result = .error e →
    ∃ pre ev, r.trace = pre ++ [ev] ∧ ev.thrown = some e ∧ ∀ x ∈ pre, x.thrown = none

/-- The collaborator call of `publicAgentCreate` that threw `e`, going through
the body in order: `logger.info`; or, after it returned, `Agent.create`; or,
after both returned, `saveAgent` on the created handle. -/
def CreateStepThrows {W : Type} (env : Env W H I E) (agentId did : String) (w : W) (e : E) :
    Prop :=
  (∃ w1, env.loggerInfo (createMsg agentId did) w = (.error e, w1)) ∨
    (∃ w1 w2, env.loggerInfo (createMsg agentId did) w = (.ok (), w1) ∧
      env.agentCreate did w1 = (.error e, w2)) ∨
    (∃ w1 w2 w3 h, env.loggerInfo (createMsg agentId did) w = (.ok (), w1) ∧
      env.agentCreate did w1 = (.ok h, w2) ∧ env.saveAgent agentId h w2 = (.error e, w3))

/-- The collaborator call of `getPublicInvite` that threw `e`, going through
the body in order: `logger.info`; or, after it returned, `loadAgent`; or,
after both returned, `createPublicInvite` on the loaded handle. -/
def InviteStepThrows {W : Type} (env : Env W H I E) (agentId label : String) (w : W) (e : E) :
    Prop :=
  (∃ w1, env.loggerInfo (inviteMsg agentId label) w = (.error e, w1)) ∨
    (∃ w1 w2, env.loggerInfo (inviteMsg agentId label) w = (.ok (), w1) ∧
      env.loadAgent agentId w1 = (.error e, w2)) ∨
    (∃ w1 w2 w3 h, env.loggerInfo (inviteMsg agentId label) w = (.ok (), w1) ∧
      env.loadAgent agentId w1 = (.ok h, w2) ∧
      env.createPublicInvite h label w2 = (.error e, w3))

instance (t : List (Event H I E)) : Decidable (backendThenStore t) := by
  unfold backendThenStore; infer_instance

instance (t : List (Event H I E)) : Decidable (storeThenBackend t) := by
  unfold storeThenBackend; infer_instance

end Observations

/-! ## A concrete deployment

Handles are numbers, invites and errors are strings, and the world is the
store itself: an association list from agent ids to handles. -/

/-- The persisted agents. -/
abbrev Store : Type := List (String × Nat)

/-- A backend that rejects `did:invalid` and empty labels, a store that
rejects a second save under the same id, a logger that returns normally. -/
def demoEnv : Env Store Nat String String where
  loggerInfo := fun _ w => (.ok (), w)
  agentCreate := fun did w =>
    if did = "did:invalid" then (.error "BackendCreationFailure", w) else (.ok did.length, w)
  saveAgent := fun agentId agent w =>
    match w.lookup agentId with
    | some _ => (.error "PersistenceFailure", w)
    | none => (.ok (), (agentId, agent) :: w)
  loadAgent := fun agentId w =>
    match w.lookup agentId with
    | some agent => (.ok agent, w)
    | none => (.error "not found", w)
  createPublicInvite := fun agent label w =>
    if label = "" then (.error "InviteGenerationFailure", w)
    else (.ok (label ++ "#" ++ toString agent), w)

/-- An environment with its logger replaced. -/
def withLogger {W H I E : Type} (env : Env W H I E)
    (logger : String → W → Except E Unit × W) : Env W H I E :=
  { env with loggerInfo := logger }

/-- A logger whose `info` throws and touches nothing. -/
def throwingLogger : String → Store → Except String Unit × Store :=
  fun _ w => (.error "logger down", w)

/-- A logger whose `info` returns normally and touches nothing. -/
def quietLogger : String → Store → Except String Unit × Store :=
  fun _ w => (.ok (), w)

/-- A logger whose `info` throws on an empty message only and touches nothing. -/
def pickyLogger : String → Store → Except String Unit × Store :=
  fun msg w => if msg = "" then (.error "empty message", w) else (.ok (), w)

/-! ## Runs, call by call -/

section Runs

variable {W H I E : Type}

/-- The run of `publicAgentCreate`, spelled out call by call. -/
theorem publicAgentCreate_run (env : Env W H I E) (agentId did : String) (w : W) :
    publicAgentCreate env agentId did w =
      match env.loggerInfo (createMsg agentId did) w with
      | (.error e, w1) => ⟨.error e, w1, [.loggerInfo (createMsg agentId did) (.error e)]⟩
      | (.ok u, w1) =>
        match env.agentCreate did w1 with
        | (.error e, w2) =>
          ⟨.error e, w2, [.loggerInfo (createMsg agentId did) (.ok u), .agentCreate did (.error e)]⟩
        | (.ok h, w2) =>
          match env.saveAgent agentId h w2 with
          | (.error e, w3) =>
            ⟨.error e, w3, [.loggerInfo (createMsg agentId did) (.ok u), .agentCreate did (.ok h),
              .saveAgent agentId h (.error e)]⟩
          | (.ok u2, w3) =>
            ⟨.ok h, w3, [.loggerInfo (createMsg agentId did) (.ok u), .agentCreate did (.ok h),
              .saveAgent agentId h (.ok u2)]⟩ := by
  simp only [publicAgentCreate, bind, Eff.bind, call, pure]
  rcases hl : env.loggerInfo _ w with ⟨_ | u, w1⟩
  · simp
  · rcases hc : env.agentCreate did w1 with ⟨_ | h, w2⟩
    · simp [hc]
    · rcases hs : env.saveAgent agentId h w2 with ⟨_ | u2, w3⟩
      · simp [hc, hs]
      · simp [hc, hs]

/-- The run of `getPublicInvite`, spelled out call by call. -/
theorem getPublicInvite_run (env : Env W H I E) (agentId label : String) (w : W) :
    getPublicInvite env agentId label w =
      match env.loggerInfo (inviteMsg agentId label) w with
      | (.error e, w1) => ⟨.error e, w1, [.loggerInfo (inviteMsg agentId label) (.error e)]⟩
      | (.ok u, w1) =>
        match env.loadAgent agentId w1 with
        | (.error e, w2) =>
          ⟨.error e, w2, [.loggerInfo (inviteMsg agentId label) (.ok u),
            .loadAgent agentId (.error e)]⟩
        | (.ok h, w2) =>
          ⟨(env.createPublicInvite h label w2).1, (env.createPublicInvite h label w2).2,
            [.loggerInfo (inviteMsg agentId label) (.ok u), .loadAgent agentId (.ok h),
              .createPublicInvite h label (env.createPublicInvite h label w2).1]⟩ := by
  simp only [getPublicInvite, bind, Eff.bind, call]
  rcases hl : env.loggerInfo _ w with ⟨_ | u, w1⟩
  · simp
  · rcases hc : env.loadAgent agentId w1 with ⟨_ | h, w2⟩
    · simp [hc]
    · simp [hc]

/-- The operation `publicAgentCreate` rejects with `e` exactly when one of its
collaborator calls, reached in order, threw `e`. -/
theorem publicAgentCreate_error_iff (env : Env W H I E) (agentId did : String) (w : W) (e : E) :
    (publicAgentCreate env agentId did w).result = .error e
      ↔ CreateStepThrows env agentId did w e := by
  constructor
  · intro hres
    rw [publicAgentCreate_run] at hres
    obtain ⟨r, w1, hl⟩ : ∃ r w1, env.loggerInfo (createMsg agentId did) w = (r, w1) :=
      ⟨_, _, rfl⟩
    cases r with
    | error e2 =>
      simp [hl] at hres
      subst hres
      exact Or.inl ⟨w1, hl⟩
    | ok u =>
      obtain ⟨r2, w2, hc⟩ : ∃ r w2, env.agentCreate did w1 = (r, w2) := ⟨_, _, rfl⟩
      cases r2 with
      | error e2 =>
        simp [hl, hc] at hres
        subst hres
        exact Or.inr (Or.inl ⟨w1, w2, hl, hc⟩)
      | ok h =>
        obtain ⟨r3, w3, hs⟩ : ∃ r w3, env.saveAgent agentId h w2 = (r, w3) := ⟨_, _, rfl⟩
        cases r3 with
        | error e2 =>
          simp [hl, hc, hs] at hres
          subst hres
          exact Or.inr (Or.inr ⟨w1, w2, w3, h, hl, hc, hs⟩)
        | ok u2 => simp [hl, hc, hs] at hres
  · rintro (⟨w1, hl⟩ | ⟨w1, w2, hl, hc⟩ | ⟨w1, w2, w3, h, hl, hc, hs⟩)
    · rw [publicAgentCreate_run]
      simp [hl]
    · rw [publicAgentCreate_run]
      simp [hl, hc]
    · rw [publicAgentCreate_run]
      simp [hl, hc, hs]

/-- The operation `getPublicInvite` rejects with `e` exactly when one of its
collaborator calls, reached in order, threw `e`. -/
theorem getPublicInvite_error_iff (env : Env W H I E) (agentId label : String) (w : W) (e : E) :
    (getPublicInvite env agentId label w).result = .error e
      ↔ InviteStepThrows env agentId label w e := by
  constructor
  · intro hres
    rw [getPublicInvite_run] at hres
    obtain ⟨r, w1, hl⟩ : ∃ r w1, env.loggerInfo (inviteMsg agentId label) w = (r, w1) :=
      ⟨_, _, rfl⟩
    cases r with
    | error e2 =>
      simp [hl] at hres
      subst hres
      exact Or.inl ⟨w1, hl⟩
    | ok u =>
      obtain ⟨r2, w2, hc⟩ : ∃ r w2, env.loadAgent agentId w1 = (r, w2) := ⟨_, _, rfl⟩
      cases r2 with
      | error e2 =>
        simp [hl, hc] at hres
        subst hres
        exact Or.inr (Or.inl ⟨w1, w2, hl, hc⟩)
      | ok h =>
        simp [hl, hc] at hres
        exact Or.inr (Or.inr ⟨w1, w2, (env.createPublicInvite h label w2).2, h, hl, hc,
          Prod.ext hres rfl⟩)
  · rintro (⟨w1, hl⟩ | ⟨w1, w2, hl, hc⟩ | ⟨w1, w2, w3, h, hl, hc, hi⟩)
    · rw [getPublicInvite_run]
      simp [hl]
    · rw [getPublicInvite_run]
      simp [hl, hc]
    · rw [getPublicInvite_run]
      simp [hl, hc, hi]

end Runs

end VcxAgent

namespace VcxAgent

/-! ## `publicAgentCreate` -/

section Claims

variable {W H I E : Type}

/-- C1: when `logger.info` returns, `Agent.create(institutionDid)` returns
handle `h` and `saveAgent(agentId, h)` returns, `publicAgentCreate` resolves
with exactly `h`; its calls are the log call, the create call and a single
`saveAgent` call, whose arguments are the caller's `agentId` and that same
`h`; the world afterwards is the one `saveAgent` left. -/
theorem publicAgentCreate_returns_saved_handle (env : Env W H I E) (agentId did : String)
    (w w1 w2 w3 : W) (h : H)
    (hlog : env.loggerInfo (createMsg agentId did) w = (.ok (), w1))
    (hcreate : env.agentCreate did w1 = (.ok h, w2))
    (hsave : env.saveAgent agentId h w2 = (.ok (), w3)) :
    (publicAgentCreate env agentId did w).result = .ok h ∧
      (publicAgentCreate env agentId did w).trace
        = [Event.loggerInfo (createMsg agentId did) (.ok ()), Event.agentCreate did (.ok h),
            Event.saveAgent agentId h (.ok ())] ∧
      (publicAgentCreate env agentId did w).trace.filter Event.isSave
        = [Event.saveAgent agentId h (.ok ())] ∧
      (publicAgentCreate env agentId did w).world = w3 := by
  rw [publicAgentCreate_run]
  simp [hlog, hcreate, hsave, Event.isSave]

/-- Scenario A: `did:sov:abc123` is created as handle 14 and saved under
`agent-1` in an empty store. -/
theorem publicAgentCreate_returns_saved_handle_scenarioA :
    (publicAgentCreate demoEnv "agent-1" "did:sov:abc123" []).result = .ok 14 ∧
      (publicAgentCreate demoEnv "agent-1" "did:sov:abc123" []).trace
        = [Event.loggerInfo (createMsg "agent-1" "did:sov:abc123") (.ok ()),
            Event.agentCreate "did:sov:abc123" (.ok 14), Event.saveAgent "agent-1" 14 (.ok ())] ∧
      (publicAgentCreate demoEnv "agent-1" "did:sov:abc123" []).trace.filter Event.isSave
        = [Event.saveAgent "agent-1" 14 (.ok ())] ∧
      (publicAgentCreate demoEnv "agent-1" "did:sov:abc123" []).world = [("agent-1", 14)] :=
  publicAgentCreate_returns_saved_handle demoEnv "agent-1" "did:sov:abc123" [] [] []
    [("agent-1", 14)] 14 (by decide) (by decide) (by decide)

/-- C2: when `logger.info` returns and `Agent.create(institutionDid)` throws
`e`, `publicAgentCreate` rejects with exactly `e`; its calls are the log call
and the failed create call, so no `saveAgent` call is made, and the world
afterwards is the one `Agent.create` left. -/
theorem publicAgentCreate_create_failure (env : Env W H I E) (agentId did : String)
    (w w1 w2 : W) (e : E)
    (hlog : env.loggerInfo (createMsg agentId did) w = (.ok (), w1))
    (hcreate : env.agentCreate did w1 = (.error e, w2)) :
    (publicAgentCreate env agentId did w).result = .error e ∧
      (publicAgentCreate env agentId did w).trace
        = [Event.loggerInfo (createMsg agentId did) (.ok ()),
            Event.agentCreate did (.error e)] ∧
      (∀ ev ∈ (publicAgentCreate env agentId did w).trace, ev.isSave = false) ∧
      (publicAgentCreate env agentId did w).world = w2 := by
  rw [publicAgentCreate_run]
  simp [hlog, hcreate, Event.isSave]

/-- Scenario D: the backend rejects `did:invalid`; nothing is stored. -/
theorem publicAgentCreate_create_failure_scenarioD :
    (publicAgentCreate demoEnv "agent-9" "did:invalid" []).result
        = .error "BackendCreationFailure" ∧
      (publicAgentCreate demoEnv "agent-9" "did:invalid" []).trace
        = [Event.loggerInfo (createMsg "agent-9" "did:invalid") (.ok ()),
            Event.agentCreate "did:invalid" (.error "BackendCreationFailure")] ∧
      (∀ ev ∈ (publicAgentCreate demoEnv "agent-9" "did:invalid" []).trace,
        ev.isSave = false) ∧
      (publicAgentCreate demoEnv "agent-9" "did:invalid" []).world = [] :=
  publicAgentCreate_create_failure demoEnv "agent-9" "did:invalid" [] [] []
    "BackendCreationFailure" (by decide) (by decide)

/-- C5: when `logger.info` returns, `Agent.create(institutionDid)` returns `h`
and `saveAgent(agentId, h)` throws `e`, `publicAgentCreate` rejects with
exactly `e` and does not resolve with `h`; its calls are the log call, the
create call and that one failed `saveAgent` call, with nothing after it. -/
theorem publicAgentCreate_save_failure (env : Env W H I E) (agentId did : String)
    (w w1 w2 w3 : W) (h : H) (e : E)
    (hlog : env.loggerInfo (createMsg agentId did) w = (.ok (), w1))
    (hcreate : env.agentCreate did w1 = (.ok h, w2))
    (hsave : env.saveAgent agentId h w2 = (.error e, w3)) :
    (publicAgentCreate env agentId did w).result = .error e ∧
      (publicAgentCreate env agentId did w).result ≠ .ok h ∧
      (publicAgentCreate env agentId did w).trace
        = [Event.loggerInfo (createMsg agentId did) (.ok ()), Event.agentCreate did (.ok h),
            Event.saveAgent agentId h (.error e)] ∧
      (publicAgentCreate env agentId did w).trace.countP Event.isSave = 1 ∧
      (publicAgentCreate env agentId did w).trace.countP Event.isCreate = 1 ∧
      (publicAgentCreate env agentId did w).world = w3 := by
  rw [publicAgentCreate_run]
  simp [hlog, hcreate, hsave, Event.isSave, Event.isCreate]

/-- A second create under `agent-1`: the backend creates handle 14, the store
refuses the save. -/
theorem publicAgentCreate_save_failure_duplicate :
    (publicAgentCreate demoEnv "agent-1" "did:sov:abc123" [("agent-1", 3)]).result
        = .error "PersistenceFailure" ∧
      (publicAgentCreate demoEnv "agent-1" "did:sov:abc123" [("agent-1", 3)]).result ≠ .ok 14 ∧
      (publicAgentCreate demoEnv "agent-1" "did:sov:abc123" [("agent-1", 3)]).trace
        = [Event.loggerInfo (createMsg "agent-1" "did:sov:abc123") (.ok ()),
            Event.agentCreate "did:sov:abc123" (.ok 14),
            Event.saveAgent "agent-1" 14 (.error "PersistenceFailure")] ∧
      (publicAgentCreate demoEnv "agent-1" "did:sov:abc123" [("agent-1", 3)]).trace.countP
        Event.isSave = 1 ∧
      (publicAgentCreate demoEnv "agent-1" "did:sov:abc123" [("agent-1", 3)]).trace.countP
        Event.isCreate = 1 ∧
      (publicAgentCreate demoEnv "agent-1" "did:sov:abc123" [("agent-1", 3)]).world
        = [("agent-1", 3)] :=
  publicAgentCreate_save_failure demoEnv "agent-1" "did:sov:abc123" [("agent-1", 3)]
    [("agent-1", 3)] [("agent-1", 3)] [("agent-1", 3)] 14 "PersistenceFailure"
    (by decide) (by decide) (by decide)

/-! ## `getPublicInvite` -/

/-- C3: when `logger.info` returns and `loadAgent(agentId)` throws `e` (the
not-found error of a store holding nothing under `agentId`), `getPublicInvite`
rejects with exactly `e`; its calls are the log call and the failed load call,
so `createPublicInvite` is never called. -/
theorem getPublicInvite_load_failure (env : Env W H I E) (agentId label : String)
    (w w1 w2 : W) (e : E)
    (hlog : env.loggerInfo (inviteMsg agentId label) w = (.ok (), w1))
    (hload : env.loadAgent agentId w1 = (.error e, w2)) :
    (getPublicInvite env agentId label w).result = .error e ∧
      (getPublicInvite env agentId label w).trace
        = [Event.loggerInfo (inviteMsg agentId label) (.ok ()),
            Event.loadAgent agentId (.error e)] ∧
      ∀ ev ∈ (getPublicInvite env agentId label w).trace, ev.isInvite = false := by
  rw [getPublicInvite_run]
  simp [hlog, hload, Event.isInvite]

/-- Scenario B: nothing is stored under `agent-missing`. -/
theorem getPublicInvite_load_failure_scenarioB :
    (getPublicInvite demoEnv "agent-missing" "Alice" [("agent-2", 7)]).result
        = .error "not found" ∧
      (getPublicInvite demoEnv "agent-missing" "Alice" [("agent-2", 7)]).trace
        = [Event.loggerInfo (inviteMsg "agent-missing" "Alice") (.ok ()),
            Event.loadAgent "agent-missing" (.error "not found")] ∧
      ∀ ev ∈ (getPublicInvite demoEnv "agent-missing" "Alice" [("agent-2", 7)]).trace,
        ev.isInvite = false :=
  getPublicInvite_load_failure demoEnv "agent-missing" "Alice" [("agent-2", 7)]
    [("agent-2", 7)] [("agent-2", 7)] "not found" (by decide) (by decide)

/-- C4: when `logger.info` returns and `loadAgent(agentId)` returns handle
`h`, the calls of `getPublicInvite` are the log call, one `loadAgent(agentId)`
call and then one `createPublicInvite(label)` call on `h`, in that order, and
the result of `getPublicInvite` is the outcome of that `createPublicInvite`
call. -/
theorem getPublicInvite_load_then_invite (env : Env W H I E) (agentId label : String)
    (w w1 w2 : W) (h : H)
    (hlog : env.loggerInfo (inviteMsg agentId label) w = (.ok (), w1))
    (hload : env.loadAgent agentId w1 = (.ok h, w2)) :
    (getPublicInvite env agentId label w).trace
        = [Event.loggerInfo (inviteMsg agentId label) (.ok ()), Event.loadAgent agentId (.ok h),
            Event.createPublicInvite h label (env.createPublicInvite h label w2).1] ∧
      (getPublicInvite env agentId label w).result = (env.createPublicInvite h label w2).1 ∧
      (getPublicInvite env agentId label w).world = (env.createPublicInvite h label w2).2 := by
  rw [getPublicInvite_run]
  simp [hlog, hload]

/-- Scenario C: handle 7 is stored under `agent-2` and renders the invite. -/
theorem getPublicInvite_load_then_invite_scenarioC :
    (getPublicInvite demoEnv "agent-2" "Bob's Shop" [("agent-2", 7)]).trace
        = [Event.loggerInfo (inviteMsg "agent-2" "Bob's Shop") (.ok ()),
            Event.loadAgent "agent-2" (.ok 7),
            Event.createPublicInvite 7 "Bob's Shop"
              (demoEnv.createPublicInvite 7 "Bob's Shop" [("agent-2", 7)]).1] ∧
      (getPublicInvite demoEnv "agent-2" "Bob's Shop" [("agent-2", 7)]).result
        = (demoEnv.createPublicInvite 7 "Bob's Shop" [("agent-2", 7)]).1 ∧
      (getPublicInvite demoEnv "agent-2" "Bob's Shop" [("agent-2", 7)]).world
        = (demoEnv.createPublicInvite 7 "Bob's Shop" [("agent-2", 7)]).2 :=
  getPublicInvite_load_then_invite demoEnv "agent-2" "Bob's Shop" [("agent-2", 7)]
    [("agent-2", 7)] [("agent-2", 7)] 7 (by decide) (by decide)

/-- C6: when `logger.info` returns, `loadAgent(agentId)` returns `h` and the
`createPublicInvite(label)` call on `h` throws `e`, `getPublicInvite` rejects
with exactly `e` and the world is the one that call left. For every
environment, `getPublicInvite` and `publicAgentCreate` reject with `e` exactly
when the collaborator call of theirs that threw, threw `e`; and the error of a
rejection is the one recorded for the last call of the trace, the only call
that threw. -/
theorem errors_propagate_unchanged (env : Env W H I E) (agentId label did : String) (w : W) :
    (∀ w1 w2 w3 h e, env.loggerInfo (inviteMsg agentId label) w = (.ok (), w1) →
        env.loadAgent agentId w1 = (.ok h, w2) →
        env.createPublicInvite h label w2 = (.error e, w3) →
        (getPublicInvite env agentId label w).result = .error e ∧
          (getPublicInvite env agentId label w).world = w3) ∧
      (∀ e, (getPublicInvite env agentId label w).result = .error e
        ↔ InviteStepThrows env agentId label w e) ∧
      (∀ e, (publicAgentCreate env agentId did w).result = .error e
        ↔ CreateStepThrows env agentId did w e) ∧
      FailsWithLastCall (getPublicInvite env agentId label w) ∧
      FailsWithLastCall (publicAgentCreate env agentId did w) := by
  refine ⟨?_, ?_, ?_, ?_, ?_⟩
  · intro w1 w2 w3 h e hlog hload hinvite
    rw [getPublicInvite_run]
    simp [hlog, hload, hinvite]
  · exact getPublicInvite_error_iff env agentId label w
  · exact publicAgentCreate_error_iff env agentId did w
  · intro e1 he1
    rw [getPublicInvite_run] at he1 ⊢
    rcases hl : env.loggerInfo (inviteMsg agentId label) w with ⟨e2 | u, w1⟩
    · simp [hl] at he1
      subst he1
      exact ⟨[], Event.loggerInfo (inviteMsg agentId label) (.error e2), by simp [hl], rfl,
        by simp⟩
    · rcases hc : env.loadAgent agentId w1 with ⟨e2 | h2, w2⟩
      · simp [hl, hc] at he1
        subst he1
        exact ⟨[Event.loggerInfo (inviteMsg agentId label) (.ok u)],
          Event.loadAgent agentId (.error e2), by simp [hl, hc], rfl, by simp [Event.thrown]⟩
      · simp [hl, hc] at he1
        exact ⟨[Event.loggerInfo (inviteMsg agentId label) (.ok u),
            Event.loadAgent agentId (.ok h2)],
          Event.createPublicInvite h2 label (.error e1), by simp [hl, hc, he1], rfl,
          by simp [Event.thrown]⟩
  · intro e1 he1
    rw [publicAgentCreate_run] at he1 ⊢
    rcases hl : env.loggerInfo (createMsg agentId did) w with ⟨e2 | u, w1⟩
    · simp [hl] at he1
      subst he1
      exact ⟨[], Event.loggerInfo (createMsg agentId did) (.error e2), by simp [hl], rfl,
        by simp⟩
    · rcases hc : env.agentCreate did w1 with ⟨e2 | h2, w2⟩
      · simp [hl, hc] at he1
        subst he1
        exact ⟨[Event.loggerInfo (createMsg agentId did) (.ok u)],
          Event.agentCreate did (.error e2), by simp [hl, hc], rfl, by simp [Event.thrown]⟩
      · rcases hs : env.saveAgent agentId h2 w2 with ⟨e2 | u2, w3⟩
        · simp [hl, hc, hs] at he1
          subst he1
          exact ⟨[Event.loggerInfo (createMsg agentId did) (.ok u),
              Event.agentCreate did (.ok h2)],
            Event.saveAgent agentId h2 (.error e2), by simp [hl, hc, hs], rfl,
            by simp [Event.thrown]⟩
        · simp [hl, hc, hs] at he1

/-- An empty label makes the backend reject the invite of the loaded handle 7,
and `did:invalid` makes it reject the creation: both operations reject with
the backend's own error. -/
theorem errors_propagate_unchanged_demo :
    ((getPublicInvite demoEnv "agent-2" "" [("agent-2", 7)]).result
          = .error "InviteGenerationFailure" ∧
        (getPublicInvite demoEnv "agent-2" "" [("agent-2", 7)]).world = [("agent-2", 7)]) ∧
      InviteStepThrows demoEnv "agent-2" "" [("agent-2", 7)] "InviteGenerationFailure" ∧
      CreateStepThrows demoEnv "agent-2" "did:invalid" [("agent-2", 7)]
        "BackendCreationFailure" ∧
      FailsWithLastCall (getPublicInvite demoEnv "agent-2" "" [("agent-2", 7)]) ∧
      FailsWithLastCall (publicAgentCreate demoEnv "agent-2" "did:invalid" [("agent-2", 7)]) :=
  ⟨(errors_propagate_unchanged demoEnv "agent-2" "" "did:invalid" [("agent-2", 7)]).1
      [("agent-2", 7)] [("agent-2", 7)] [("agent-2", 7)] 7 "InviteGenerationFailure"
      (by decide) (by decide) (by decide),
    ((errors_propagate_unchanged demoEnv "agent-2" "" "did:invalid" [("agent-2", 7)]).2.1
      "InviteGenerationFailure").1 (by decide),
    ((errors_propagate_unchanged demoEnv "agent-2" "" "did:invalid" [("agent-2", 7)]).2.2.1
      "BackendCreationFailure").1 (by decide),
    (errors_propagate_unchanged demoEnv "agent-2" "" "did:invalid" [("agent-2", 7)]).2.2.2.1,
    (errors_propagate_unchanged demoEnv "agent-2" "" "did:invalid" [("agent-2", 7)]).2.2.2.2⟩

/-- C7: whatever the collaborators do, the trace of `getPublicInvite` holds no
`saveAgent` call and no `Agent.create` call; so any part `store` of the world
that `logger.info`, `loadAgent` and `createPublicInvite` leave alone is the
same after the call as before it. -/
theorem getPublicInvite_no_persistence {S : Type} (env : Env W H I E) (store : W → S)
    (agentId label : String) (w : W)
    (hlog : ∀ m w0, store (env.loggerInfo m w0).2 = store w0)
    (hload : ∀ a w0, store (env.loadAgent a w0).2 = store w0)
    (hinvite : ∀ g l w0, store (env.createPublicInvite g l w0).2 = store w0) :
    (∀ ev ∈ (getPublicInvite env agentId label w).trace,
        ev.isSave = false ∧ ev.isCreate = false) ∧
      store (getPublicInvite env agentId label w).world = store w := by
  have h1 := hlog (inviteMsg agentId label) w
  rw [getPublicInvite_run]
  rcases hl : env.loggerInfo (inviteMsg agentId label) w with ⟨e2 | u, w1⟩
  · rw [hl] at h1
    simpa [Event.isSave, Event.isCreate] using h1
  · rw [hl] at h1
    have h2 := hload agentId w1
    rcases hc : env.loadAgent agentId w1 with ⟨e2 | h, w2⟩
    · rw [hc] at h2
      simpa [hc, Event.isSave, Event.isCreate] using h2.trans h1
    · rw [hc] at h2
      have h3 := hinvite h label w2
      simpa [hc, Event.isSave, Event.isCreate] using h3.trans (h2.trans h1)

/-- With the world being the store itself, an invite for `agent-2` leaves the
store as it was. -/
theorem getPublicInvite_no_persistence_store_unchanged :
    (∀ a w0, (demoEnv.loadAgent a w0).2 = w0) ∧
      (∀ ev ∈ (getPublicInvite demoEnv "agent-2" "Bob's Shop" [("agent-2", 7)]).trace,
        ev.isSave = false ∧ ev.isCreate = false) ∧
      (getPublicInvite demoEnv "agent-2" "Bob's Shop" [("agent-2", 7)]).world
        = [("agent-2", 7)] :=
  have hload : ∀ a w0, (demoEnv.loadAgent a w0).2 = w0 := by
    intro a w0
    simp only [demoEnv]
    split <;> rfl
  have hinvite : ∀ g l w0, (demoEnv.createPublicInvite g l w0).2 = w0 := by
    intro g l w0
    simp only [demoEnv]
    split <;> rfl
  ⟨hload,
    getPublicInvite_no_persistence demoEnv (fun s => s) "agent-2" "Bob's Shop" [("agent-2", 7)]
      (fun _ _ => rfl) hload hinvite⟩

/-! ## Both operations -/

/-- C8: for every behaviour of the collaborators, the trace of
`publicAgentCreate` and the trace of `getPublicInvite` start with the
`logger.info` call of the operation's message, no later call of the trace is a
`logger.info` call, and so each trace holds exactly one. -/
theorem log_entry_first_and_only (env : Env W H I E) (agentId did label : String) (w : W) :
    (∃ r rest, (publicAgentCreate env agentId did w).trace
          = Event.loggerInfo (createMsg agentId did) r :: rest ∧
        (∀ ev ∈ rest, ev.isLog = false) ∧
        (publicAgentCreate env agentId did w).trace.countP Event.isLog = 1) ∧
      (∃ r rest, (getPublicInvite env agentId label w).trace
          = Event.loggerInfo (inviteMsg agentId label) r :: rest ∧
        (∀ ev ∈ rest, ev.isLog = false) ∧
        (getPublicInvite env agentId label w).trace.countP Event.isLog = 1) := by
  constructor
  · rw [publicAgentCreate_run]
    rcases hl : env.loggerInfo (createMsg agentId did) w with ⟨e2 | u, w1⟩
    · exact ⟨.error e2, [], by simp [hl, Event.isLog]⟩
    · rcases hc : env.agentCreate did w1 with ⟨e2 | h2, w2⟩
      · exact ⟨.ok u, [Event.agentCreate did (.error e2)], by simp [hl, hc, Event.isLog]⟩
      · rcases hs : env.saveAgent agentId h2 w2 with ⟨e2 | u2, w3⟩
        · exact ⟨.ok u, [Event.agentCreate did (.ok h2), Event.saveAgent agentId h2 (.error e2)],
            by simp [hl, hc, hs, Event.isLog]⟩
        · exact ⟨.ok u, [Event.agentCreate did (.ok h2), Event.saveAgent agentId h2 (.ok u2)],
            by simp [hl, hc, hs, Event.isLog]⟩
  · rw [getPublicInvite_run]
    rcases hl : env.loggerInfo (inviteMsg agentId label) w with ⟨e2 | u, w1⟩
    · exact ⟨.error e2, [], by simp [hl, Event.isLog]⟩
    · rcases hc : env.loadAgent agentId w1 with ⟨e2 | h2, w2⟩
      · exact ⟨.ok u, [Event.loadAgent agentId (.error e2)], by simp [hl, hc, Event.isLog]⟩
      · exact ⟨.ok u, [Event.loadAgent agentId (.ok h2),
            Event.createPublicInvite h2 label (env.createPublicInvite h2 label w2).1],
          by simp [hl, hc, Event.isLog]⟩

/-- C9, as stated, fails: the run of `getPublicInvite` for the stored
`agent-2` calls the store (`loadAgent`) and only then the backend
(`createPublicInvite`). -/
theorem backend_before_store_fails_for_getPublicInvite :
    ¬ backendThenStore (getPublicInvite demoEnv "agent-2" "Bob's Shop" [("agent-2", 7)]).trace := by
  decide

/-- C9, amended: every trace of either operation holds at most one backend
call and at most one store call; in `publicAgentCreate` the backend call
(`Agent.create`) comes before the store call (`saveAgent`), in
`getPublicInvite` the store call (`loadAgent`) comes before the backend call
(`createPublicInvite`). -/
theorem one_backend_call_one_store_call (env : Env W H I E) (agentId did label : String)
    (w : W) :
    backendThenStore (publicAgentCreate env agentId did w).trace ∧
      storeThenBackend (getPublicInvite env agentId label w).trace := by
  constructor
  · rw [publicAgentCreate_run]
    rcases hl : env.loggerInfo (createMsg agentId did) w with ⟨e2 | u, w1⟩
    · simp [hl, backendThenStore, Event.kind]
    · rcases hc : env.agentCreate did w1 with ⟨e2 | h2, w2⟩
      · simp [hl, hc, backendThenStore, Event.kind]
      · rcases hs : env.saveAgent agentId h2 w2 with ⟨e2 | u2, w3⟩
        · simp [hl, hc, hs, backendThenStore, Event.kind]
        · simp [hl, hc, hs, backendThenStore, Event.kind]
  · rw [getPublicInvite_run]
    rcases hl : env.loggerInfo (inviteMsg agentId label) w with ⟨e2 | u, w1⟩
    · simp [hl, storeThenBackend, Event.kind]
    · rcases hc : env.loadAgent agentId w1 with ⟨e2 | h2, w2⟩
      · simp [hl, hc, storeThenBackend, Event.kind]
      · simp [hl, hc, storeThenBackend, Event.kind]

/-- C10, as stated, fails: with the same backend and store, a `logger.info`
that throws gives `publicAgentCreate` and `getPublicInvite` another result and
other backend and store calls than a `logger.info` that returns. -/
theorem throwing_logger_changes_the_outcome :
    (publicAgentCreate (withLogger demoEnv throwingLogger) "agent-1" "did:sov:abc123" []).result
        ≠ (publicAgentCreate (withLogger demoEnv quietLogger) "agent-1" "did:sov:abc123" []).result ∧
      effectCalls
          (publicAgentCreate (withLogger demoEnv throwingLogger) "agent-1" "did:sov:abc123" []).trace
        ≠ effectCalls
          (publicAgentCreate (withLogger demoEnv quietLogger) "agent-1" "did:sov:abc123" []).trace ∧
      (getPublicInvite (withLogger demoEnv throwingLogger) "agent-2" "Bob" [("agent-2", 7)]).result
        ≠ (getPublicInvite (withLogger demoEnv quietLogger) "agent-2" "Bob" [("agent-2", 7)]).result ∧
      effectCalls
          (getPublicInvite (withLogger demoEnv throwingLogger) "agent-2" "Bob" [("agent-2", 7)]).trace
        ≠ effectCalls
          (getPublicInvite (withLogger demoEnv quietLogger) "agent-2" "Bob" [("agent-2", 7)]).trace := by
  decide

/-- C10, amended: when `logger.info` throws `e`, `publicAgentCreate` and
`getPublicInvite` reject with `e` and make no backend or store call; when it
returns normally, the run is the same for any two loggers that leave the same
world behind. -/
theorem logger_outcome_decides (env : Env W H I E)
    (logger logger2 : String → W → Except E Unit × W) (agentId did label : String) (w : W) :
    (∀ e w1, logger (createMsg agentId did) w = (.error e, w1) →
        (publicAgentCreate (withLogger env logger) agentId did w).result = .error e ∧
          effectCalls (publicAgentCreate (withLogger env logger) agentId did w).trace = []) ∧
      (∀ e w1, logger (inviteMsg agentId label) w = (.error e, w1) →
        (getPublicInvite (withLogger env logger) agentId label w).result = .error e ∧
          effectCalls (getPublicInvite (withLogger env logger) agentId label w).trace = []) ∧
      (∀ w1, logger (createMsg agentId did) w = (.ok (), w1) →
        logger2 (createMsg agentId did) w = (.ok (), w1) →
        publicAgentCreate (withLogger env logger) agentId did w
          = publicAgentCreate (withLogger env logger2) agentId did w) ∧
      (∀ w1, logger (inviteMsg agentId label) w = (.ok (), w1) →
        logger2 (inviteMsg agentId label) w = (.ok (), w1) →
        getPublicInvite (withLogger env logger) agentId label w
          = getPublicInvite (withLogger env logger2) agentId label w) := by
  refine ⟨?_, ?_, ?_, ?_⟩
  · intro e w1 hl
    rw [publicAgentCreate_run]
    simp [withLogger, hl, effectCalls, Event.isLog]
  · intro e w1 hl
    rw [getPublicInvite_run]
    simp [withLogger, hl, effectCalls, Event.isLog]
  · intro w1 hl hl2
    rw [publicAgentCreate_run, publicAgentCreate_run]
    simp [withLogger, hl, hl2]
  · intro w1 hl hl2
    rw [getPublicInvite_run, getPublicInvite_run]
    simp [withLogger, hl, hl2]

/-- The throwing logger stops both operations before any backend or store
call; the quiet and the picky logger give the same runs. -/
theorem logger_outcome_decides_demo :
    ((publicAgentCreate (withLogger demoEnv throwingLogger) "agent-1" "did:sov:abc123" []).result
          = .error "logger down" ∧
        effectCalls
          (publicAgentCreate (withLogger demoEnv throwingLogger) "agent-1" "did:sov:abc123" []).trace
          = []) ∧
      ((getPublicInvite (withLogger demoEnv throwingLogger) "agent-2" "Bob" [("agent-2", 7)]).result
          = .error "logger down" ∧
        effectCalls
          (getPublicInvite (withLogger demoEnv throwingLogger) "agent-2" "Bob" [("agent-2", 7)]).trace
          = []) ∧
      publicAgentCreate (withLogger demoEnv quietLogger) "agent-1" "did:sov:abc123" []
        = publicAgentCreate (withLogger demoEnv pickyLogger) "agent-1" "did:sov:abc123" [] ∧
      getPublicInvite (withLogger demoEnv quietLogger) "agent-2" "Bob" [("agent-2", 7)]
        = getPublicInvite (withLogger demoEnv pickyLogger) "agent-2" "Bob" [("agent-2", 7)] :=
  ⟨(logger_outcome_decides demoEnv throwingLogger throwingLogger "agent-1" "did:sov:abc123" "Bob"
      []).1 "logger down" [] rfl,
    (logger_outcome_decides demoEnv throwingLogger throwingLogger "agent-2" "did:sov:abc123" "Bob"
      [("agent-2", 7)]).2.1 "logger down" [("agent-2", 7)] rfl,
    (logger_outcome_decides demoEnv quietLogger pickyLogger "agent-1" "did:sov:abc123" "Bob"
      []).2.2.1 [] rfl (by decide),
    (logger_outcome_decides demoEnv quietLogger pickyLogger "agent-2" "did:sov:abc123" "Bob"
      [("agent-2", 7)]).2.2.2 [("agent-2", 7)] rfl (by decide)⟩

end Claims
